import Mathlib

set_option maxRecDepth 100000

/-!
Shallow embedding of the STAFFVIRTUAL Discord bot (src/main.py).

Python strings are modelled as Lean `String` (a list of characters);
Python slicing, `len`, `str.strip`, `str.replace(c, "")`, `str.title` and
`int(s, 16)` are modelled by the `py*` helpers below, working on `String.data`.
Python `dict`s are modelled as insertion-ordered association lists.
A call to an external AI SDK is modelled by its outcome (`PyOutcome`):
either the text it returns or the exception it raises.
-/

namespace SVBot

/-- Python `s[:n]` (also the second half of `s[a:b]`). -/
def pyTake (s : String) (n : Nat) : String := ⟨s.data.take n⟩

/-- Python `s[n:]`. -/
def pyDrop (s : String) (n : Nat) : String := ⟨s.data.drop n⟩

/-- Python `s[a:b]` for `0 ≤ a ≤ b`. -/
def pySlice (s : String) (a b : Nat) : String := ⟨(s.data.take b).drop a⟩

/-- Python `len(s)`. -/
def pyLen (s : String) : Nat := s.data.length

/-- Substring occurrence test on character lists (Python `pat in text`). -/
def occursInL (pat : List Char) : List Char → Bool
  | [] => pat.isEmpty
  | c :: rest => List.isPrefixOf pat (c :: rest) || occursInL pat rest

/-- Substring occurrence test on strings (Python `pat in text`). -/
def occursIn (pat s : String) : Bool := occursInL pat.data s.data

/-- ASCII whitespace, as stripped by Python `str.strip()` / `int()`. -/
def isSpaceChar (c : Char) : Bool :=
  c.toNat = 32 || c.toNat = 9 || c.toNat = 10 || c.toNat = 13 || c.toNat = 11 || c.toNat = 12

/-- Python `str.strip()` on a character list (ASCII whitespace). -/
def pyStripL (cs : List Char) : List Char :=
  ((cs.dropWhile isSpaceChar).reverse.dropWhile isSpaceChar).reverse

/-- Python `str.strip()`. -/
def pyStrip (s : String) : String := ⟨pyStripL s.data⟩

/-- Python `s.replace("#", "")`: removes every `#`. -/
def removeHashStr (s : String) : String := ⟨s.data.filter (fun c => !(c == '#'))⟩

/-- Value of a hexadecimal digit character, if it is one. -/
def hexVal (c : Char) : Option Nat :=
  if 48 ≤ c.toNat ∧ c.toNat ≤ 57 then some (c.toNat - 48)
  else if 97 ≤ c.toNat ∧ c.toNat ≤ 102 then some (c.toNat - 87)
  else if 65 ≤ c.toNat ∧ c.toNat ≤ 70 then some (c.toNat - 55)
  else none

/-- Hex digits possibly separated by single underscores, continuing an
accumulated value (CPython `int(s, 16)` digit grammar). -/
def hexTail : List Char → Nat → Option Nat
  | [], acc => some acc
  | c :: rest, acc =>
    if c = '_' then
      match rest with
      | c2 :: rest2 =>
        match hexVal c2 with
        | some d => hexTail rest2 (acc * 16 + d)
        | none => none
      | [] => none
    else
      match hexVal c with
      | some d => hexTail rest (acc * 16 + d)
      | none => none

/-- A non-empty run of hex digits (with single-underscore separators). -/
def hexBody (cs : List Char) : Option Nat :=
  match cs with
  | [] => none
  | c :: rest =>
    match hexVal c with
    | some d => hexTail rest d
    | none => none

/-- Digits of CPython `int(s, 16)` after the optional sign: an optional
`0x`/`0X` prefix (which may be followed by one underscore) and then hex
digits with single-underscore separators. -/
def pyIntHexCore (cs : List Char) : Option Nat :=
  match cs with
  | c0 :: c1 :: rest =>
    if c0 = '0' ∧ (c1 = 'x' ∨ c1 = 'X') then
      match rest with
      | r :: rtail => if r = '_' then hexBody rtail else hexBody rest
      | [] => none
    else hexBody cs
  | _ => hexBody cs

/-- CPython `int(s, 16)` after whitespace stripping: an optional sign and
then the prefixed digit run. -/
def pyIntHexL (cs : List Char) : Option Int :=
  match cs with
  | [] => none
  | c :: rest =>
    if c = '+' then (pyIntHexCore rest).map (fun n => (n : Int))
    else if c = '-' then (pyIntHexCore rest).map (fun n => -(n : Int))
    else (pyIntHexCore (c :: rest)).map (fun n => (n : Int))

/-- CPython `int(s, 16)`: surrounding whitespace, an optional sign, an
optional `0x` prefix, then hex digits. `none` models `ValueError`. -/
def pyIntHex (s : String) : Option Int := pyIntHexL (pyStripL s.data)

/-- `int(s, 16)` as a fallible computation (`.error` models `ValueError`). -/
def intHexE (s : String) : Except Unit Int :=
  match pyIntHex s with
  | some v => .ok v
  | none => .error ()

/-- The `try` block of `parse_color` (src/main.py lines 62-66): `None` or
blank input falls back to the default; otherwise `color_clean =
color_str.replace('#', '').strip()` is parsed as base 16 when it has
exactly six characters, and the default is parsed otherwise. -/
def parse_color_body (color_str : Option String) (default : String) : Except Unit Int :=
  match color_str with
  | none => intHexE (removeHashStr default)
  | some s =>
    if s.data = [] ∨ (pyStrip s).data = [] then intHexE (removeHashStr default)
    else
      if (pyStrip (removeHashStr s)).data.length = 6 then
        intHexE (pyStrip (removeHashStr s))
      else intHexE (removeHashStr default)

/-- `parse_color` from `SVDiscordBot.__init__` (src/main.py lines 61-68).
`color_str = none` models Python `None`; a `ValueError` in the `try` block
is caught and answered with the parsed default. The result is `.error`
exactly when the Python function would raise, which can only happen while
parsing the default itself inside the `except` handler. -/
def parse_color (color_str : Option String) (default : String) : Except Unit Int :=
  match parse_color_body color_str default with
  | .ok v => .ok v
  | .error _ => intHexE (removeHashStr default)

/-- Outcome of one call into an AI SDK: the text it returned, or the
message of the exception it raised. -/
inductive PyOutcome where
  | ok (text : String)
  | err (msg : String)
deriving DecidableEq, Repr

/-- `self.ai_clients`: a Python dict from provider-name strings to clients,
each client modelled by the outcome of calling it. -/
abbrev Registry := List (String × PyOutcome)

/-- Python dict lookup (`d[k]` / `k in d`): first binding of the key. -/
def dictGet (d : Registry) (k : String) : Option PyOutcome :=
  (d.find? (fun p => p.1 == k)).map (fun p => p.2)

/-- `result[:max_length] + "..." if max_length and len(result) > max_length
else result` — note that Python truthiness makes `max_length = 0` (and
`None`) return the result verbatim. -/
def pyTruncate (result : String) (max_length : Option Nat) : String :=
  match max_length with
  | none => result
  | some m => if m ≠ 0 ∧ pyLen result > m then pyTake result m ++ "..." else result

/-- The provider-resolution part of `_get_ai_response` (src/main.py lines
345-384): try `nano_banana`, then `gemini`, then `openai`; a client present
in the registry whose call raises is logged and fallen through, exactly like
an absent client; if nothing succeeds, return the sentinel. The function is
total: the Python outer `except` (line 383) is unreachable once every
provider call's exception is caught by its inner `except`. -/
def getAIResponse (clients : Registry) (max_length : Option Nat) : String :=
  match dictGet clients "nano_banana" with
  | some (.ok t) => pyTruncate t max_length
  | _ =>
    match dictGet clients "gemini" with
    | some (.ok t) => pyTruncate t max_length
    | _ =>
      match dictGet clients "openai" with
      | some (.ok t) => pyTruncate t max_length
      | _ => "❌ No AI service available."

/-- `some (.ok _)` is a successful provider stage; anything else (absent, or
present but raising) falls through. -/
def isFailB (o : Option PyOutcome) : Bool :=
  match o with
  | some (.ok _) => false
  | _ => true

/-- Keys whose `openai` stage call actually executes. -/
def attemptedFromOpenai (clients : Registry) : List String :=
  match dictGet clients "openai" with
  | some _ => ["openai"]
  | none => []

/-- Keys whose calls execute from the `gemini` stage on. -/
def attemptedFromGemini (clients : Registry) : List String :=
  match dictGet clients "gemini" with
  | some (.ok _) => ["gemini"]
  | some (.err _) => "gemini" :: attemptedFromOpenai clients
  | none => attemptedFromOpenai clients

/-- The sequence of provider calls `_get_ai_response` actually executes, in
order: a key is attempted iff it is in the registry and no earlier stage
succeeded. -/
def attemptedCalls (clients : Registry) : List String :=
  match dictGet clients "nano_banana" with
  | some (.ok _) => ["nano_banana"]
  | some (.err _) => "nano_banana" :: attemptedFromGemini clients
  | none => attemptedFromGemini clients

/-- First third (source lines 123-160) of the `brand_dna` f-string literal of
`SVDiscordBot.__init__` (src/main.py lines 122-237). The literal is split into
three consecutive pieces only so that proofs can evaluate each piece; their
concatenation `brand_dna` is the exact source string. -/
def brand_dna_p1 : String := "
        STAFFVIRTUAL — Enterprise Virtual Talent Partner

        Company Profile:
        - Mission: Enable growing companies to scale with precision by deploying vetted, managed virtual teams that deliver measurable outcomes.
        - Vision: Become the most trusted global partner for building modern, distributed operating capacity.
        - Ideal Customers (ICP): Mid-market to enterprise operators (COO, CIO/CTO, CMO, Heads of Ops/Customer/IT) in SaaS, Fintech, E-commerce, Professional Services, Healthcare, Legal, and B2B Services.
        - Market Focus: North America, UK/Europe, and ANZ with delivery in the Philippines and follow-the-sun coverage.

        Category Narrative:
        - The Modern Weave™: We connect specialist talent, refined process, and lightweight tech to create an adaptive operating fabric—scalable, secure, and always on.

        Service Portfolio (Capability Towers):
        1) CX & Operations
           - Virtual Assistants, CX Pods (Voice/Chat/Email), Billing/AR, Back-Office Ops, Data QA, Research
        2) Creative & Content Studio
           - Brand & Design Ops, Marketing Design, Motion/Video Editing, Content Production, Social Ops
        3) Technology & Engineering
           - Web/App Dev, QA, DevOps, Data Engineering, IT Helpdesk (L1–L2), NOC, Cloud Support
        4) Growth Marketing
           - SEO, Paid Media (PPC/Meta/LinkedIn), Marketing Analytics, Email/Lifecycle, CRO, Marketing Ops

        Engagement Models & Commercials:
        - Dedicated Talent (FTE or Pod): Embedded specialists with shared QA and Team Lead oversight.
        - Managed Outcomes (SOW): Defined deliverables, SLAs, and governance.
        - Project Squads: Time-boxed initiatives with cross-functional roles.
        - Pricing: Transparent and role-based with seniority bands (L1–L3). Hourly, monthly retainers, or SOW.
          Reference ranges: $15–$75/hr; $2K–$15K/mo retainers; SOW on scope.

        Operating Model:
        - Vetted Talent Bench: Multi-step assessment, domain screening, and live work simulations.
        - Governance: Dedicated Team Leads, QA scorecards, weekly business reviews, and quarterly exec reviews.
        - Tooling: We integrate with your stack (Google/Microsoft, Slack/Teams, Jira/Asana, HubSpot/SFDC).
        - Coverage: 24/5 to 24/7 options with redundancy and documented runbooks.

        Competitive Positioning:
        - Premium Alternative to freelance networks and basic VA shops (Belay, Time Etc, Fancy Hands).
        - Vertical & Role Depth: Structured playbooks for CX, TechOps, Creative Ops, and Growth.
        - Managed, Not Marketplace: Accountability via SLAs, QA, and leadership layers.
"

/-- Second third (source lines 161-199) of the `brand_dna` literal. -/
def brand_dna_p2 : String := "        - Flexible & Low-Friction: Start lean, scale fast, adjust roles without re-hiring cycles.

        Trust, Security & Compliance:
        - Data Protection: Principle of least privilege, password vaulting, and secure device policies.
        - Process Controls: Role-based access, audit trails, and incident response playbooks.
        - Legal: DPAs available; client-preferred NDAs and addenda supported.
        - Compliance-Ready: We align to enterprise expectations; certification details provided during onboarding.

        Brand Identity (Essentials for Content & Design):
        - Palette:
          · Trust Blue: #1888FF
          · Authority Blue: #004B8D
          · Clean White: #F8F8EB
          · Ink Black: #231F20
        - Motifs: Modern Weave grid, rounded tiles, light node connections; clean, editorial compositions.
        - Photography: Realistic, bright, minimal; no text overlays; avoid clutter and gimmicks.
        - Illustration/3D: Isometric/editorial accents only; clean lighting; no cropped or cut-off elements.
        - Layout: Grid-first, ample whitespace, decisive hierarchy; Bain-grade restraint.
        - Tone of Voice: Executive, measured, evidence-led, outcome-oriented. Avoid hype and slang.

        Voice & Messaging Rules (Write Like This):
        - Lead with outcomes and specifics; quantify when possible.
        - Use plain English. Prefer verbs over adjectives. Keep sentences tight.
        - Emphasize accountability (SLAs, QA, governance) and adaptability (scale up/down, swap roles).
        - Do say: “We’ll stand up a two-role pod with a 14-day ramp and weekly quality reviews.”
          Don’t say: “We’ll supercharge your growth with world-class ninjas.”

        Messaging Pillars (with Proof You’ll Supply):
        1) Quality Talent, Vetted and Managed
           - Proof: Hiring funnel data, pass rates, simulation scores, client tenure.
        2) Enterprise-Grade Governance
           - Proof: QA scorecards, SLA attainment, cadence (WBR/QBR) artifacts.
        3) Scalable & Flexible Capacity
           - Proof: Ramp timelines, role swaps, seasonality playbooks.
        4) Security & Compliance
           - Proof: Access controls, device standards, DPAs, incident logs/process.
        5) ROI & Speed to Impact
           - Proof: Time-to-productivity, cost-to-serve deltas, case study results.

"

/-- Last third (source lines 200-236) of the `brand_dna` literal, ending with
the newline and eight spaces that precede the closing triple quote. -/
def brand_dna_p3 : String := "        Key Messages (Client-Facing):
        - “Build capacity without adding headcount.”
        - “Managed virtual teams that hit SLAs—and your goals.”
        - “Scale securely. Deliver faster. Reduce operational drag.”
        - “Outcomes over overhead.”

        Differentiators (What We Will Always Defend):
        - Vetted talent + managed delivery (not a marketplace).
        - Pod leadership and QA baked into every engagement.
        - Flexible models that match how operators actually run.
        - Clear governance, measurable outcomes, clean handoffs.

        Proof & Case Studies (Structure we’ll follow):
        - Situation → Approach (Pod, Playbooks, Tooling) → SLA/Outcome → ROI/Impact → Quote
        - Include team composition, timeline to ramp, and before/after metrics.

        Go-to-Market (Quick Start):
        - Entry Offers: Discovery Workshop, 30-day Pilot Pod, or Dedicated Role Stand-Up.
        - Typical Ramp: 10–14 days to steady state for L1–L2; 3–4 weeks for multi-role pods.
        - Executive Cadence: Weekly business reviews + QBRs; dashboard access by default.

        Keywords & Phrases (for SEO/Ads/Pages):
        - “Managed virtual teams”, “Offshore CX pod”, “Creative operations”, “IT helpdesk outsourcing”,
          “NOC support”, “Growth marketing pod”, “Scale operations”, “Bain-style operating partner”.

        Boilerplate (Short):
        - STAFFVIRTUAL builds modern operating capacity for growing companies. We deploy vetted virtual
          specialists and managed pods across CX, Creative, Technology, and Growth—governed by SLAs,
          QA, and executive cadence—so operators scale faster with less overhead.

        Contact CTA Library:
        - “Request a pilot pod”
        - “Scope an SOW”
        - “See a role matrix and pricing bands”
        - “Book a 20-minute fit assessment”

        (Updated: 2025-09-20, Asia/Manila)
        "

/-- `self.brand_dna`: the full f-string (it interpolates nothing). -/
def brand_dna : String := brand_dna_p1 ++ (brand_dna_p2 ++ brand_dna_p3)

/-- The fixed instruction block that closes the `enhanced_prompt` f-string
(src/main.py lines 332-343). -/
def promptInstructions : String :=
  "
            
            Instructions:
            1. Provide comprehensive, detailed responses (aim for 1500-3000 words for blog content)
            2. Include specific STAFFVIRTUAL examples, case studies, and value propositions
            3. Reference our actual services and competitive advantages
            4. Use industry statistics and credible data points
            5. Maintain professional yet engaging tone
            6. Include actionable next steps and clear calls-to-action
            7. For SEO content, naturally integrate relevant keywords
            8. Position STAFFVIRTUAL as the premium choice in virtual staffing
            
            Create expert-level content that demonstrates deep industry knowledge and STAFFVIRTUAL expertise.
            "

/-- The prompt assembly of `_get_ai_response` (src/main.py lines 324-343):
the `enhanced_prompt` f-string. The `use_knowledge` parameter of the Python
function is accepted but never read — no knowledge lookup occurs. -/
def enhancedPrompt (prompt system_context : String) (use_knowledge : Bool) : String :=
  "\n            " ++
  (brand_dna ++
  ("\n            \n            Your Expert Role: " ++
  (system_context ++
  ("\n            \n            User Request: " ++
  (prompt ++
  promptInstructions)))))

/-- Python `str.title()` (ASCII model): an alphabetic character is
uppercased when the previous character is not alphabetic, lowercased
otherwise. -/
def pyTitleAux : List Char → Bool → List Char
  | [], _ => []
  | c :: rest, prevAlpha =>
    (if c.isAlpha then (if prevAlpha then c.toLower else c.toUpper) else c) ::
      pyTitleAux rest c.isAlpha

/-- Python `str.title()`. -/
def pyTitle (s : String) : String := ⟨pyTitleAux s.data false⟩

/-- The embed fields `cmd_social_enhanced` adds for the generated post
(src/main.py lines 653-660): one field when the result fits in 1024
characters, otherwise slices `[:1024]` and either `[1024:2048]` (content
beyond 2048 is dropped) or `[1024:]`. -/
def socialFields (platform social_result : String) : List (String × String) :=
  if pyLen social_result > 1024 then
    ("📝 " ++ pyTitle platform ++ " Post (Part 1)", pyTake social_result 1024) ::
    [if pyLen social_result > 2048 then
       ("📝 " ++ pyTitle platform ++ " Post (Part 2)", pySlice social_result 1024 2048)
     else
       ("📝 " ++ pyTitle platform ++ " Post (Part 2)", pyDrop social_result 1024)]
  else
    [("📝 " ++ pyTitle platform ++ " Post", social_result)]

/-- The preview fields `cmd_content_enhanced` adds for the generated
content (src/main.py lines 522-530): the threshold is 1000 characters, not
1024, with slices `[:1000]` and `[1000:2000]`; the full text is always also
attached as a file by the surrounding handler. -/
def contentPreviewFields (content_result : String) : List (String × String) :=
  if pyLen content_result > 1000 then
    ("📋 Content Preview (Part 1)", pyTake content_result 1000) ::
    (if pyLen content_result > 2000 then
       [("📋 Content Preview (Part 2)", pySlice content_result 1000 2000),
        ("📄 Complete Content", "See attached file for full article with SEO analysis")]
     else
       [("📋 Content Preview (Part 2)", pyDrop content_result 1000)])
  else
    [("📋 Complete Content", content_result)]

/-- Python `[s[i:i+size] for i in range(0, len(s), size)]`. -/
def pyChunks (s : String) (size : Nat) : List String :=
  (List.range ((pyLen s + size - 1) / size)).map
    (fun i => pySlice s (i * size) (i * size + size))

/-- Field name used by `cmd_seo_audit` for chunk `i`. -/
def seoFieldName (i : Nat) : String :=
  if i = 0 then "🔍 SEO Analysis" else "🔍 Continued (" ++ toString (i + 1) ++ ")"

/-- Result-presentation state produced by `cmd_seo_audit`: the embed fields
holding the audit text and whether a file attachment is offered. -/
structure SeoAuditOutput where
  fields : List (String × String)
  hasFile : Bool
deriving DecidableEq, Repr

/-- The chunking of `cmd_seo_audit` (src/main.py lines 884-899): up to six
1024-character chunks become fields; if more than six chunks exist, a
"Complete Audit" field is added and the full audit is attached as a file. -/
def seoAuditEmbed (audit_result : String) : SeoAuditOutput :=
  if pyLen audit_result > 1024 then
    if (pyChunks audit_result 1024).length > 6 then
      { fields :=
          ((pyChunks audit_result 1024).take 6).enum.map
            (fun p => (seoFieldName p.1, p.2)) ++
          [("📄 Complete Audit", "See attached file for full SEO analysis")],
        hasFile := true }
    else
      { fields :=
          ((pyChunks audit_result 1024).take 6).enum.map
            (fun p => (seoFieldName p.1, p.2)),
        hasFile := false }
  else
    { fields := [("🔍 SEO Analysis", audit_result)], hasFile := false }

/-- A knowledge-base entry: Python dict
`{"content": content, "type": "manual"}`. -/
structure KBEntry where
  content : String
  type : String
deriving DecidableEq, Repr

/-- Updates the binding of `t` (Python dict assignment to an existing key). -/
def updEntry (t : String) (v : KBEntry) (p : String × KBEntry) : String × KBEntry :=
  if p.1 == t then (t, v) else p

/-- Python dict assignment `d[t] = v` on an insertion-ordered dict: replace
in place when the key exists, append otherwise. -/
def dictInsert (d : List (String × KBEntry)) (t : String) (v : KBEntry) :
    List (String × KBEntry) :=
  if d.any (fun p => p.1 == t) then d.map (updEntry t v) else d ++ [(t, v)]

/-- `self.knowledge_base`: `{"manual_entries": {...}, "scraped_content": {...}}`. -/
structure KnowledgeBase where
  manual_entries : List (String × KBEntry)
  scraped_content : List (String × KBEntry)
deriving DecidableEq, Repr

/-- `_add_to_knowledge_base` (src/main.py lines 386-394): initialise the
store if absent (`hasattr` check, modelled by the `Option`), then assign
`knowledge_base["manual_entries"][title] = {"content": content, "type":
"manual"}` and return `True`; the `except` branch returning `False` is
unreachable for string inputs. -/
def addToKnowledgeBase (kb : Option KnowledgeBase) (title content : String) :
    KnowledgeBase × Bool :=
  let base := kb.getD ⟨[], []⟩
  ({ base with
      manual_entries := dictInsert base.manual_entries title ⟨content, "manual"⟩ },
   true)

/-- Python `str.lower()` (ASCII model). -/
def lowerStr (s : String) : String := ⟨s.data.map Char.toLower⟩

/-- Modelled from the spec: the "relevant knowledge" lookup that §4.1 says
`_get_ai_response` performs when `use_knowledge` is true — a
case-insensitive substring search of the request against knowledge-entry
titles and content, keeping the first 3 matches, each entry's content
truncated to 200 characters. No such code exists in `_get_ai_response`
(src/main.py lines 321-343); this definition exists only to compare the
spec's description with the code. Entries are `(title, content)` pairs. -/
def searchKnowledge_specModel (entries : List (String × String)) (request : String) :
    List String :=
  ((entries.filter (fun e =>
      occursIn (lowerStr request) (lowerStr e.1) ||
      occursIn (lowerStr request) (lowerStr e.2))).map
    (fun e => pyTake e.2 200)).take 3

/-- Concrete 1024-character string used to exercise the chunking logic. -/
def exStr1024 : String := ⟨List.replicate 1024 'a'⟩

/-- Concrete 1025-character string used to exercise the chunking logic. -/
def exStr1025 : String := ⟨List.replicate 1025 'b'⟩

/-- Concrete 4096-character string used to exercise the chunking logic. -/
def exStr4096 : String := ⟨List.replicate 4096 'c'⟩

/-- Concrete 7168-character string (seven full 1024-character chunks). -/
def exStr7168 : String := ⟨List.replicate 7168 'd'⟩

/-- Concrete registry used to exercise the provider fallback chain. -/
def exRegistry : Registry := [("nano_banana", .err "boom"), ("openai", .ok "hi")]

/-- Registry holding only an `anthropic` client. -/
def exAnthropicOnly : Registry := [("anthropic", .ok "from-anthropic")]

/-- Registry with a single successful `nano_banana` client. -/
def exRegC10 : Registry := [("nano_banana", .ok "hello")]

/-! ## Theorems -/

/-- `(a ++ b).data = a.data ++ b.data` (definitional, by structure eta). -/
theorem strData_append (a b : String) : (a ++ b).data = a.data ++ b.data := rfl

/-- A string whose first component is non-empty is non-empty. -/
theorem ne_empty_of_append (a b : String) (ha : a.data ≠ []) : a ++ b ≠ "" := by
  intro h
  have h2 : (a ++ b).data = ("" : String).data := by rw [h]
  rw [strData_append] at h2
  exact ha (List.append_eq_nil.mp h2).1

/-- String append is associative. -/
theorem strAppend_assoc (a b c : String) : a ++ b ++ c = a ++ (b ++ c) :=
  congrArg String.mk (List.append_assoc a.data b.data c.data)

/-! ### Helper lemmas -/

theorem attemptedFromOpenai_sublist (cl : Registry) :
    List.Sublist (attemptedFromOpenai cl) ["openai"] := by
  unfold attemptedFromOpenai
  rcases dictGet cl "openai" with _ | x
  · exact List.nil_sublist _
  · exact List.Sublist.refl _

theorem attemptedFromGemini_sublist (cl : Registry) :
    List.Sublist (attemptedFromGemini cl) ["gemini", "openai"] := by
  unfold attemptedFromGemini
  rcases dictGet cl "gemini" with _ | x
  · exact (attemptedFromOpenai_sublist cl).cons _
  · rcases x with t | e
    · exact (by decide : List.Sublist ["gemini"] ["gemini", "openai"])
    · exact (attemptedFromOpenai_sublist cl).cons₂ _

theorem attemptedCalls_sublist (cl : Registry) :
    List.Sublist (attemptedCalls cl) ["nano_banana", "gemini", "openai"] := by
  unfold attemptedCalls
  rcases dictGet cl "nano_banana" with _ | x
  · exact (attemptedFromGemini_sublist cl).cons _
  · rcases x with t | e
    · exact (by decide : List.Sublist ["nano_banana"] ["nano_banana", "gemini", "openai"])
    · exact (attemptedFromGemini_sublist cl).cons₂ _

/-! ### Claim C1 -/

/-- Claim C1 (amended): `_get_ai_response` attempts the configured clients
in the fixed order `nano_banana` (new Gemini SDK), `gemini` (legacy Gemini
SDK), `openai`, skipping absent providers; it returns the text of the first
successful call, and a provider call that raises is caught and logged,
falling through to the next stage. No Anthropic stage exists: an
`anthropic` client is never attempted. -/
theorem c1_provider_fallback_amended (clients : Registry) :
    List.Sublist (attemptedCalls clients) ["nano_banana", "gemini", "openai"]
    ∧ "anthropic" ∉ attemptedCalls clients
    ∧ (∀ t, dictGet clients "nano_banana" = some (.ok t) →
        getAIResponse clients none = t)
    ∧ (∀ t, isFailB (dictGet clients "nano_banana") = true →
        dictGet clients "gemini" = some (.ok t) →
        getAIResponse clients none = t)
    ∧ (∀ t, isFailB (dictGet clients "nano_banana") = true →
        isFailB (dictGet clients "gemini") = true →
        dictGet clients "openai" = some (.ok t) →
        getAIResponse clients none = t) := by
  refine ⟨attemptedCalls_sublist clients, ?_, ?_, ?_, ?_⟩
  · intro hmem
    exact absurd ((attemptedCalls_sublist clients).subset hmem) (by decide)
  · intro t hn
    simp [getAIResponse, hn, pyTruncate]
  · intro t hn hg
    rcases hn2 : dictGet clients "nano_banana" with _ | x
    · simp [getAIResponse, hn2, hg, pyTruncate]
    · rcases x with t2 | e
      · rw [hn2] at hn; simp [isFailB] at hn
      · simp [getAIResponse, hn2, hg, pyTruncate]
  · intro t hn hg ho
    rcases hn2 : dictGet clients "nano_banana" with _ | x
    · rcases hg2 : dictGet clients "gemini" with _ | y
      · simp [getAIResponse, hn2, hg2, ho, pyTruncate]
      · rcases y with t3 | e3
        · rw [hg2] at hg; simp [isFailB] at hg
        · simp [getAIResponse, hn2, hg2, ho, pyTruncate]
    · rcases x with t2 | e
      · rw [hn2] at hn; simp [isFailB] at hn
      · rcases hg2 : dictGet clients "gemini" with _ | y
        · simp [getAIResponse, hn2, hg2, ho, pyTruncate]
        · rcases y with t3 | e3
          · rw [hg2] at hg; simp [isFailB] at hg
          · simp [getAIResponse, hn2, hg2, ho, pyTruncate]

/-- Witness for C1: with `nano_banana` raising and `openai` succeeding, the
attempted order is `nano_banana` then `openai` and OpenAI's text is
returned. -/
theorem c1_provider_fallback_amended_witness :
    attemptedCalls exRegistry = ["nano_banana", "openai"]
    ∧ getAIResponse exRegistry none = "hi" := by
  have h := c1_provider_fallback_amended exRegistry
  exact ⟨by decide, h.2.2.2.2 "hi" (by decide) (by decide) (by decide)⟩

/-- Counterexample for C1 as frozen: a registry holding only an `anthropic`
client whose call would succeed; `_get_ai_response` never attempts it and
returns the "no service" sentinel instead of its text. -/
theorem c1_counterexample :
    getAIResponse exAnthropicOnly none = "❌ No AI service available."
    ∧ attemptedCalls exAnthropicOnly = [] := ⟨rfl, rfl⟩

/-! ### Claim C2 -/

/-- Claim C2 (confirmed): if every provider stage fails — the registry is
empty, providers are absent, or their calls raise — `_get_ai_response`
returns the fixed sentinel, which begins with the error marker, and (being
a total function of the modelled outcomes) does not raise. -/
theorem c2_no_service_sentinel (clients : Registry) (m : Option Nat)
    (h1 : isFailB (dictGet clients "nano_banana") = true)
    (h2 : isFailB (dictGet clients "gemini") = true)
    (h3 : isFailB (dictGet clients "openai") = true) :
    getAIResponse clients m = "❌ No AI service available."
    ∧ ∃ rest, getAIResponse clients m = "❌" ++ rest := by
  have key : getAIResponse clients m = "❌ No AI service available." := by
    rcases hn : dictGet clients "nano_banana" with _ | x
    · rcases hg : dictGet clients "gemini" with _ | y
      · rcases ho : dictGet clients "openai" with _ | z
        · simp [getAIResponse, hn, hg, ho]
        · rcases z with t | e
          · rw [ho] at h3; simp [isFailB] at h3
          · simp [getAIResponse, hn, hg, ho]
      · rcases y with t | e
        · rw [hg] at h2; simp [isFailB] at h2
        · rcases ho : dictGet clients "openai" with _ | z
          · simp [getAIResponse, hn, hg, ho]
          · rcases z with t2 | e2
            · rw [ho] at h3; simp [isFailB] at h3
            · simp [getAIResponse, hn, hg, ho]
    · rcases x with t | e
      · rw [hn] at h1; simp [isFailB] at h1
      · rcases hg : dictGet clients "gemini" with _ | y
        · rcases ho : dictGet clients "openai" with _ | z
          · simp [getAIResponse, hn, hg, ho]
          · rcases z with t2 | e2
            · rw [ho] at h3; simp [isFailB] at h3
            · simp [getAIResponse, hn, hg, ho]
        · rcases y with t2 | e2
          · rw [hg] at h2; simp [isFailB] at h2
          · rcases ho : dictGet clients "openai" with _ | z
            · simp [getAIResponse, hn, hg, ho]
            · rcases z with t3 | e3
              · rw [ho] at h3; simp [isFailB] at h3
              · simp [getAIResponse, hn, hg, ho]
  exact ⟨key, " No AI service available.", by rw [key]; decide⟩

/-- Witness for C2: the empty registry yields the sentinel. -/
theorem c2_no_service_sentinel_witness :
    getAIResponse [] none = "❌ No AI service available." :=
  (c2_no_service_sentinel [] none rfl rfl rfl).1

/-! ### Claim C10 -/

/-- Claim C10 (amended): with a positive `max_length`, a longer result is
cut to its first `max_length` characters plus the literal three dots, so
the returned string has length `max_length + 3`; a result within the limit,
or a `max_length` of `None`, is returned verbatim — but so is any result
when `max_length = 0`, because Python treats `0` as falsy. -/
theorem c10_truncation_amended (clients : Registry) (t : String) (m : Nat)
    (hget : dictGet clients "nano_banana" = some (.ok t)) :
    getAIResponse clients none = t
    ∧ getAIResponse clients (some 0) = t
    ∧ (pyLen t ≤ m → getAIResponse clients (some m) = t)
    ∧ (0 < m → pyLen t > m →
        getAIResponse clients (some m) = pyTake t m ++ "..."
        ∧ pyLen (getAIResponse clients (some m)) = m + 3) := by
  refine ⟨by simp [getAIResponse, hget, pyTruncate], ?_, ?_, ?_⟩
  · simp [getAIResponse, hget, pyTruncate]
  · intro hle
    simp [getAIResponse, hget, pyTruncate]
    omega
  · intro hpos hgt
    have hcut : getAIResponse clients (some m) = pyTake t m ++ "..." := by
      simp [getAIResponse, hget, pyTruncate]
      intro hcon
      omega
    refine ⟨hcut, ?_⟩
    rw [hcut]
    show ((pyTake t m).data ++ ("..." : String).data).length = m + 3
    rw [List.length_append]
    have h1 : (pyTake t m).data.length = m := by
      show (t.data.take m).length = m
      rw [List.length_take]
      exact Nat.min_eq_left (Nat.le_of_lt hgt)
    rw [h1]
    have h2 : ("..." : String).data.length = 3 := rfl
    rw [h2]

/-- Witness for C10: a five-character result with `max_length = 4` is cut
to seven characters; with `max_length = 0` it is returned whole. -/
theorem c10_truncation_amended_witness :
    getAIResponse exRegC10 (some 4) = "hell..."
    ∧ getAIResponse exRegC10 (some 0) = "hello" := by
  have h := c10_truncation_amended exRegC10 "hello" 4 rfl
  exact ⟨((h.2.2.2 (by decide) (by decide)).1).trans rfl, h.2.1⟩

/-- Counterexample for C10 as frozen: with `max_length = 0` and a result of
length 5 > 0, the result is returned verbatim, not cut to
`result[:0] + "..."`. -/
theorem c10_counterexample :
    getAIResponse exRegC10 (some 0) = "hello"
    ∧ pyLen "hello" > 0
    ∧ getAIResponse exRegC10 (some 0) ≠ pyTake "hello" 0 ++ "..." := by
  exact ⟨rfl, by decide, by decide⟩

/-! ### Claim C3 -/

/-- Claim C3 (amended): the `use_knowledge` flag of `_get_ai_response` is
ignored — the assembled prompt is identical whatever its value, and no
"relevant knowledge" block is ever added (the prompt does not depend on the
knowledge store at all; see the counterexample for a matching entry whose
content does not reach the prompt). -/
theorem c3_use_knowledge_ignored_amended (prompt system_context : String) (b1 b2 : Bool) :
    enhancedPrompt prompt system_context b1 = enhancedPrompt prompt system_context b2 := rfl

/-- Counterexample for C3 as frozen: the knowledge store holds the entry
`("ζ", "χ")` and the request is `"ζ"`, so the spec's case-insensitive search
matches it and its 200-character truncation is the non-empty block `["χ"]`;
yet the character `χ` does not occur anywhere in the prompt
`_get_ai_response` assembles with `use_knowledge = True` — no knowledge
block is included. -/
theorem c3_counterexample :
    searchKnowledge_specModel [("ζ", "χ")] "ζ" = ["χ"]
    ∧ 'χ' ∉ (enhancedPrompt "ζ" "Expert" true).data := by
  refine ⟨by decide, ?_⟩
  show ¬ ('χ' ∈ ("\n            " : String).data ++
    ((brand_dna_p1.data ++ (brand_dna_p2.data ++ brand_dna_p3.data)) ++
    (("\n            \n            Your Expert Role: " : String).data ++
    (("Expert" : String).data ++
    (("\n            \n            User Request: " : String).data ++
    (("ζ" : String).data ++ promptInstructions.data))))))
  exact List.not_mem_append (by decide)
    (List.not_mem_append
      (List.not_mem_append (by decide) (List.not_mem_append (by decide) (by decide)))
      (List.not_mem_append (by decide)
        (List.not_mem_append (by decide)
          (List.not_mem_append (by decide)
            (List.not_mem_append (by decide) (by decide))))))

/-! ### Claim C5 -/

/-- Claim C5 (confirmed): for every system context (agent role) and user
request, the assembled prompt is a non-empty string consisting, in order,
of brand context (`brand_dna`), the role-specific instruction line, the
literal `User Request:` label and then the literal user request (the
knowledge block is always empty and hence omitted; the fixed instruction
list follows the request). In particular the prompt contains the request
verbatim. -/
theorem c5_prompt_order (prompt system_context : String) (use_knowledge : Bool) :
    enhancedPrompt prompt system_context use_knowledge ≠ ""
    ∧ ∃ s1 s2 s3 s4,
        enhancedPrompt prompt system_context use_knowledge
          = s1 ++ (brand_dna ++ (s2 ++ (system_context ++
              (s3 ++ ("User Request: " ++ (prompt ++ s4)))))) := by
  constructor
  · exact ne_empty_of_append _ _ (by decide)
  · refine ⟨"\n            ", "\n            \n            Your Expert Role: ",
      "\n            \n            ", promptInstructions, ?_⟩
    show "\n            " ++
      (brand_dna ++
      ("\n            \n            Your Expert Role: " ++
      (system_context ++
      ("\n            \n            User Request: " ++
      (prompt ++ promptInstructions))))) = _
    conv_lhs =>
      rw [show ("\n            \n            User Request: " : String)
        = "\n            \n            " ++ "User Request: " from rfl]
    simp only [strAppend_assoc]

/-! ### Claim C6 -/

/-- Claim C6 (amended): no agent-type validation exists. `_get_ai_response`
has no `AgentPromptSet` and no "unknown agent type" failure path: every
system-context string, matching no predefined key or not, is embedded into
a normal assembled prompt that carries the user request after the
`User Request:` label and starts with a newline (so it is not an
error-marker string). -/
theorem c6_no_agent_type_check_amended (prompt system_context : String) (uk : Bool) :
    (∃ pre post, enhancedPrompt prompt system_context uk
        = pre ++ ("User Request: " ++ (prompt ++ post)))
    ∧ (enhancedPrompt prompt system_context uk).data.head? = some '\n' := by
  constructor
  · refine ⟨"\n            " ++
      (brand_dna ++
      ("\n            \n            Your Expert Role: " ++
      (system_context ++ "\n            \n            "))), promptInstructions, ?_⟩
    show "\n            " ++
      (brand_dna ++
      ("\n            \n            Your Expert Role: " ++
      (system_context ++
      ("\n            \n            User Request: " ++
      (prompt ++ promptInstructions))))) = _
    conv_lhs =>
      rw [show ("\n            \n            User Request: " : String)
        = "\n            \n            " ++ "User Request: " from rfl]
    simp only [strAppend_assoc]
  · rfl

/-- Counterexample for C6 as frozen: the selector
`"social_media_wizard_9000"` matches no predefined agent key (the code has
no key set at all), yet prompt assembly does not fail: it produces a
non-empty prompt that embeds the request after the `User Request:` label
and starts with a newline rather than any failure marker. -/
theorem c6_counterexample :
    enhancedPrompt "hello" "social_media_wizard_9000" true ≠ ""
    ∧ (∃ pre post, enhancedPrompt "hello" "social_media_wizard_9000" true
        = pre ++ ("User Request: " ++ ("hello" ++ post)))
    ∧ (enhancedPrompt "hello" "social_media_wizard_9000" true).data.head? = some '\n' := by
  refine ⟨ne_empty_of_append _ _ (by decide), ?_, rfl⟩
  refine ⟨"\n            " ++
    (brand_dna ++
    ("\n            \n            Your Expert Role: " ++
    ("social_media_wizard_9000" ++ "\n            \n            "))), promptInstructions, ?_⟩
  show "\n            " ++
    (brand_dna ++
    ("\n            \n            Your Expert Role: " ++
    ("social_media_wizard_9000" ++
    ("\n            \n            User Request: " ++
    ("hello" ++ promptInstructions))))) = _
  conv_lhs =>
    rw [show ("\n            \n            User Request: " : String)
      = "\n            \n            " ++ "User Request: " from rfl]
  simp only [strAppend_assoc]

theorem pyChunks_length (s : String) (size : Nat) :
    (pyChunks s size).length = (pyLen s + size - 1) / size := by
  simp [pyChunks]

/-! ### Claim C4 -/

/-- Claim C4 (amended): a result of exactly 1024 characters fills a single
embed field in `cmd_social_enhanced` and `cmd_seo_audit`, and a result of
1025 characters is split across (at least) two fields by all three
handlers; but `cmd_content_enhanced` chunks at a 1000-character threshold,
so it splits a 1024-character result across two preview fields instead of
one. -/
theorem c4_chunk_boundaries_amended (platform s1024 s1025 : String)
    (h4 : pyLen s1024 = 1024) (h5 : pyLen s1025 = 1025) :
    (socialFields platform s1024).length = 1
    ∧ (seoAuditEmbed s1024).fields.length = 1
    ∧ (contentPreviewFields s1024).length = 2
    ∧ (socialFields platform s1025).length = 2
    ∧ (seoAuditEmbed s1025).fields.length = 2
    ∧ (contentPreviewFields s1025).length = 2 := by
  refine ⟨?_, ?_, ?_, ?_, ?_, ?_⟩
  · simp [socialFields, h4]
  · simp [seoAuditEmbed, h4]
  · simp [contentPreviewFields, h4]
  · simp [socialFields, h5]
  · have hc : (pyChunks s1025 1024).length = 2 := by
      rw [pyChunks_length, h5]
    unfold seoAuditEmbed
    rw [if_pos (by omega), if_neg (by omega)]
    simp [hc]
  · simp [contentPreviewFields, h5]

/-- Witness for C4: concrete 1024- and 1025-character strings. -/
theorem c4_chunk_boundaries_amended_witness :
    (socialFields "linkedin" exStr1024).length = 1
    ∧ (contentPreviewFields exStr1024).length = 2
    ∧ (socialFields "linkedin" exStr1025).length = 2 := by
  have h4 : pyLen exStr1024 = 1024 := by
    show (List.replicate 1024 'a').length = 1024
    exact List.length_replicate 1024 'a'
  have h5 : pyLen exStr1025 = 1025 := by
    show (List.replicate 1025 'b').length = 1025
    exact List.length_replicate 1025 'b'
  have h := c4_chunk_boundaries_amended "linkedin" exStr1024 exStr1025 h4 h5
  exact ⟨h.1, h.2.2.1, h.2.2.2.1⟩

/-- Counterexample for C4 as frozen: `cmd_content_enhanced` places a
1024-character result in two preview fields, not one. -/
theorem c4_counterexample :
    pyLen exStr1024 = 1024 ∧ (contentPreviewFields exStr1024).length ≠ 1 := by
  refine ⟨?_, by decide⟩
  show (List.replicate 1024 'a').length = 1024
  exact List.length_replicate 1024 'a' 

/-! ### Claim C7 -/

/-- Claim C7 (amended): each handler sends a bounded number of fixed-size
slices and never emits further fields beyond its bound —
`cmd_social_enhanced` sends at most 2 slices (anything past character 2048
is silently dropped), `cmd_content_enhanced` adds at most 3 fields (two
1000-character preview slices plus a pointer to the always-attached file),
and `cmd_seo_audit` sends up to 6 slices — not 2–3 — plus a pointer field,
attaching the full text as a file exactly when more than 6 chunks exist. -/
theorem c7_slice_bounds_amended (platform r : String) :
    (socialFields platform r).length ≤ 2
    ∧ (contentPreviewFields r).length ≤ 3
    ∧ (seoAuditEmbed r).fields.length ≤ 7
    ∧ ((pyChunks r 1024).length > 6 → (seoAuditEmbed r).hasFile = true)
    ∧ ((pyChunks r 1024).length ≤ 6 → (seoAuditEmbed r).hasFile = false) := by
  refine ⟨?_, ?_, ?_, ?_, ?_⟩
  · unfold socialFields
    split <;> simp
  · unfold contentPreviewFields
    split
    · split <;> simp
    · simp
  · unfold seoAuditEmbed
    split
    · split
      · simp only [List.length_append, List.length_map, List.enum_length,
          List.length_take, List.length_singleton]
        omega
      · simp only [List.length_map, List.enum_length, List.length_take]
        omega
    · simp
  · intro h6
    unfold seoAuditEmbed
    rw [if_pos ?_, if_pos h6]
    rw [pyChunks_length] at h6
    omega
  · intro h6
    unfold seoAuditEmbed
    split
    · rw [if_neg (by omega)]
    · rfl

/-- Witness for C7: a 7168-character audit result produces more than six
chunks, so the file fallback is offered; the social handler still sends at
most two slices. -/
theorem c7_slice_bounds_amended_witness :
    (seoAuditEmbed exStr7168).hasFile = true
    ∧ (socialFields "x" exStr7168).length ≤ 2 := by
  have h := c7_slice_bounds_amended "x" exStr7168
  refine ⟨h.2.2.2.1 ?_, h.1⟩
  have hlen : pyLen exStr7168 = 7168 := by
    show (List.replicate 7168 'd').length = 7168
    exact List.length_replicate 7168 'd'
  rw [pyChunks_length, hlen]
  omega

/-- Counterexample for C7 as frozen: a 4096-character audit result makes
`cmd_seo_audit` emit four slice fields, exceeding the claimed 2–3 bound. -/
theorem c7_counterexample :
    (seoAuditEmbed exStr4096).fields.length = 4
    ∧ ¬ (seoAuditEmbed exStr4096).fields.length ≤ 3 := by
  have hlen : pyLen exStr4096 = 4096 := by
    show (List.replicate 4096 'c').length = 4096
    exact List.length_replicate 4096 'c' 
  have hc : (pyChunks exStr4096 1024).length = 4 := by
    rw [pyChunks_length, hlen]
  have key : (seoAuditEmbed exStr4096).fields.length = 4 := by
    unfold seoAuditEmbed
    rw [if_pos (by omega), if_neg (by omega)]
    simp [hc]
  exact ⟨key, by omega⟩

theorem dictInsert_pos (d : List (String × KBEntry)) (t : String) (v : KBEntry)
    (h : d.any (fun p => p.1 == t) = true) :
    dictInsert d t v = d.map (updEntry t v) := by
  unfold dictInsert
  rw [if_pos h]

theorem dictInsert_neg (d : List (String × KBEntry)) (t : String) (v : KBEntry)
    (h : d.any (fun p => p.1 == t) = false) :
    dictInsert d t v = d ++ [(t, v)] := by
  unfold dictInsert
  rw [if_neg (by simp [h])]

theorem map_updEntry_any (d : List (String × KBEntry)) (t : String) (v : KBEntry) :
    (d.map (updEntry t v)).any (fun p => p.1 == t) = d.any (fun p => p.1 == t) := by
  induction d with
  | nil => rfl
  | cons hd tl ih =>
    cases h : (hd.1 == t)
    · simp [updEntry, h, ih]
    · simp [updEntry, h, ih]

theorem map_updEntry_twice (d : List (String × KBEntry)) (t : String) (v1 v2 : KBEntry) :
    (d.map (updEntry t v1)).map (updEntry t v2) = d.map (updEntry t v2) := by
  rw [List.map_map]
  have hfun : updEntry t v2 ∘ updEntry t v1 = updEntry t v2 := by
    funext p
    by_cases h : p.1 = t
    · simp [updEntry, Function.comp, h]
    · simp [updEntry, Function.comp, h]
  rw [hfun]

theorem map_updEntry_absent (d : List (String × KBEntry)) (t : String) (v : KBEntry)
    (h : d.any (fun p => p.1 == t) = false) :
    d.map (updEntry t v) = d := by
  induction d with
  | nil => rfl
  | cons hd tl ih =>
    simp only [List.any_cons, Bool.or_eq_false_iff] at h
    simp [updEntry, h.1, ih h.2]

theorem dictInsert_dictInsert (d : List (String × KBEntry)) (t : String) (v1 v2 : KBEntry) :
    dictInsert (dictInsert d t v1) t v2 = dictInsert d t v2 := by
  cases hany : d.any (fun p => p.1 == t)
  · rw [dictInsert_neg d t v1 hany, dictInsert_neg d t v2 hany]
    have hmem : (d ++ [(t, v1)]).any (fun p => p.1 == t) = true := by
      simp [List.any_append]
    rw [dictInsert_pos _ t v2 hmem, List.map_append,
      map_updEntry_absent d t v2 hany]
    simp [updEntry]
  · rw [dictInsert_pos d t v1 hany, dictInsert_pos d t v2 hany,
      dictInsert_pos _ t v2 (by rw [map_updEntry_any]; exact hany),
      map_updEntry_twice]

theorem any_dictInsert_self (d : List (String × KBEntry)) (t : String) (v : KBEntry) :
    (dictInsert d t v).any (fun p => p.1 == t) = true := by
  cases hany : d.any (fun p => p.1 == t)
  · rw [dictInsert_neg d t v hany]
    simp [List.any_append]
  · rw [dictInsert_pos d t v hany, map_updEntry_any]
    exact hany

theorem dictInsert_length_of_mem (d : List (String × KBEntry)) (t : String) (v : KBEntry)
    (h : d.any (fun p => p.1 == t) = true) :
    (dictInsert d t v).length = d.length := by
  rw [dictInsert_pos d t v h, List.length_map]

/-! ### Claim C8 -/

/-- Claim C8 (confirmed): re-adding a knowledge entry under an existing
title replaces the stored content instead of duplicating it — adding
`(t, c1)` and then `(t, c2)` leaves the store equal to adding `(t, c2)`
alone, and the second add never grows the entry count. -/
theorem c8_readd_replaces (kb : Option KnowledgeBase) (t c1 c2 : String) :
    (addToKnowledgeBase (some (addToKnowledgeBase kb t c1).1) t c2).1
      = (addToKnowledgeBase kb t c2).1
    ∧ (addToKnowledgeBase (some (addToKnowledgeBase kb t c1).1) t c2).1.manual_entries.length
      = (addToKnowledgeBase kb t c1).1.manual_entries.length := by
  constructor
  · simp [addToKnowledgeBase, dictInsert_dictInsert]
  · simp only [addToKnowledgeBase, Option.getD_some]
    exact dictInsert_length_of_mem _ t ⟨c2, "manual"⟩
      (any_dictInsert_self _ t ⟨c1, "manual"⟩)

theorem hexVal_char_facts (c : Char) (d : Nat) (h : hexVal c = some d) :
    isSpaceChar c = false ∧ c ≠ '#' ∧ c ≠ '+' ∧ c ≠ '-' ∧ c ≠ '_' ∧ c ≠ 'x' ∧ c ≠ 'X' := by
  have hn : (48 ≤ c.toNat ∧ c.toNat ≤ 57) ∨ (97 ≤ c.toNat ∧ c.toNat ≤ 102) ∨
      (65 ≤ c.toNat ∧ c.toNat ≤ 70) := by
    unfold hexVal at h
    split_ifs at h with h1 h2 h3
    · exact Or.inl h1
    · exact Or.inr (Or.inl h2)
    · exact Or.inr (Or.inr h3)
  refine ⟨?_, ?_, ?_, ?_, ?_, ?_, ?_⟩
  · rcases hn with ⟨hl, hr⟩ | ⟨hl, hr⟩ | ⟨hl, hr⟩ <;> (simp [isSpaceChar]; omega)
  · intro heq; rw [heq] at hn; revert hn; decide
  · intro heq; rw [heq] at hn; revert hn; decide
  · intro heq; rw [heq] at hn; revert hn; decide
  · intro heq; rw [heq] at hn; revert hn; decide
  · intro heq; rw [heq] at hn; revert hn; decide
  · intro heq; rw [heq] at hn; revert hn; decide

theorem dropWhile_nonspace (l : List Char) (h : ∀ c ∈ l, isSpaceChar c = false) :
    l.dropWhile isSpaceChar = l := by
  cases l with
  | nil => rfl
  | cons a tl =>
    rw [List.dropWhile_cons, if_neg (by simp [h a (List.mem_cons_self a tl)])]

theorem pyStripL_nonspace (l : List Char) (h : ∀ c ∈ l, isSpaceChar c = false) :
    pyStripL l = l := by
  unfold pyStripL
  rw [dropWhile_nonspace l h,
    dropWhile_nonspace l.reverse (by intro c hc; exact h c (List.mem_reverse.mp hc)),
    List.reverse_reverse]

theorem filter_no_hash (l : List Char) (h : ∀ c ∈ l, c ≠ '#') :
    l.filter (fun c => !(c == '#')) = l :=
  List.filter_eq_self.mpr (fun a ha => by simp [h a ha])

theorem pyIntHex_six_digits (a b c e f g : Char) (da db dc de df dg : Nat)
    (ha : hexVal a = some da) (hb : hexVal b = some db) (hc : hexVal c = some dc)
    (he : hexVal e = some de) (hf : hexVal f = some df) (hg : hexVal g = some dg) :
    pyIntHex ⟨[a, b, c, e, f, g]⟩
      = some ((((((da * 16 + db) * 16 + dc) * 16 + de) * 16 + df) * 16 + dg : Nat) : Int) := by
  have Fa := hexVal_char_facts a da ha
  have Fb := hexVal_char_facts b db hb
  have Fc := hexVal_char_facts c dc hc
  have Fe := hexVal_char_facts e de he
  have Ff := hexVal_char_facts f df hf
  have Fg := hexVal_char_facts g dg hg
  have hsp : ∀ ch ∈ [a, b, c, e, f, g], isSpaceChar ch = false := by
    intro ch hch
    simp only [List.mem_cons, List.not_mem_nil, or_false] at hch
    rcases hch with rfl | rfl | rfl | rfl | rfl | rfl
    exacts [Fa.1, Fb.1, Fc.1, Fe.1, Ff.1, Fg.1]
  show pyIntHexL (pyStripL (⟨[a, b, c, e, f, g]⟩ : String).data) = _
  rw [show (⟨[a, b, c, e, f, g]⟩ : String).data = [a, b, c, e, f, g] from rfl,
    pyStripL_nonspace _ hsp]
  simp [pyIntHexL, pyIntHexCore, hexBody, hexTail, ha, hb, hc, he, hf, hg,
    Fa.2.2.1, Fa.2.2.2.1, Fb.2.2.2.2.1, Fb.2.2.2.2.2.1, Fb.2.2.2.2.2.2,
    Fc.2.2.2.2.1, Fe.2.2.2.2.1, Ff.2.2.2.2.1, Fg.2.2.2.2.1]

/-! ### Claim C9 -/

/-- Claim C9 (confirmed): provided the supplied default parses as hex (as
the hard-coded defaults do), `parse_color` never raises for any input —
`None`, empty, blank, non-hex text, or hex of the wrong length all return
the parsed default — and a six-hex-digit input, with or without a leading
`#`, returns its base-16 value. -/
theorem c9_parse_color_safe (dflt : String) (defv : Int)
    (hd : intHexE (removeHashStr dflt) = .ok defv) :
    (∀ cs : Option String, ∃ v : Int, parse_color cs dflt = .ok v)
    ∧ parse_color none dflt = .ok defv
    ∧ (∀ s, ((pyStrip (removeHashStr s)).data.length ≠ 6 ∨
          intHexE (pyStrip (removeHashStr s)) = .error ()) →
        parse_color (some s) dflt = .ok defv)
    ∧ (∀ a b c e f g da db dc de df dg,
        hexVal a = some da → hexVal b = some db → hexVal c = some dc →
        hexVal e = some de → hexVal f = some df → hexVal g = some dg →
        parse_color (some ⟨[a, b, c, e, f, g]⟩) dflt
            = .ok ((((((da * 16 + db) * 16 + dc) * 16 + de) * 16 + df) * 16 + dg : Nat) : Int)
        ∧ parse_color (some ⟨['#', a, b, c, e, f, g]⟩) dflt
            = .ok ((((((da * 16 + db) * 16 + dc) * 16 + de) * 16 + df) * 16 + dg : Nat) : Int)) := by
  refine ⟨?_, ?_, ?_, ?_⟩
  · intro cs
    rcases hb : parse_color_body cs dflt with u | v
    · exact ⟨defv, by simp [parse_color, hb, hd]⟩
    · exact ⟨v, by simp [parse_color, hb]⟩
  · simp [parse_color, parse_color_body, hd]
  · intro s hor
    by_cases hemp : s.data = [] ∨ (pyStrip s).data = []
    · have hb : parse_color_body (some s) dflt = intHexE (removeHashStr dflt) := by
        simp only [parse_color_body]
        rw [if_pos hemp]
      simp [parse_color, hb, hd]
    · by_cases h6 : (pyStrip (removeHashStr s)).data.length = 6
      · rcases hor with hlen | herr
        · exact absurd h6 hlen
        · have hb : parse_color_body (some s) dflt = .error () := by
            simp only [parse_color_body]
            rw [if_neg hemp, if_pos h6, herr]
          simp [parse_color, hb, hd]
      · have hb : parse_color_body (some s) dflt = intHexE (removeHashStr dflt) := by
          simp only [parse_color_body]
          rw [if_neg hemp, if_neg h6]
        simp [parse_color, hb, hd]
  · intro a b c e f g da db dc de df dg ha hb hc he hf hg
    have Fa := hexVal_char_facts a da ha
    have Fb := hexVal_char_facts b db hb
    have Fc := hexVal_char_facts c dc hc
    have Fe := hexVal_char_facts e de he
    have Ff := hexVal_char_facts f df hf
    have Fg := hexVal_char_facts g dg hg
    have hsp : ∀ ch ∈ [a, b, c, e, f, g], isSpaceChar ch = false := by
      intro ch hch
      simp only [List.mem_cons, List.not_mem_nil, or_false] at hch
      rcases hch with rfl | rfl | rfl | rfl | rfl | rfl
      exacts [Fa.1, Fb.1, Fc.1, Fe.1, Ff.1, Fg.1]
    have hnh : ∀ ch ∈ [a, b, c, e, f, g], ch ≠ '#' := by
      intro ch hch
      simp only [List.mem_cons, List.not_mem_nil, or_false] at hch
      rcases hch with rfl | rfl | rfl | rfl | rfl | rfl
      exacts [Fa.2.1, Fb.2.1, Fc.2.1, Fe.2.1, Ff.2.1, Fg.2.1]
    have hhash : removeHashStr ⟨[a, b, c, e, f, g]⟩ = ⟨[a, b, c, e, f, g]⟩ :=
      congrArg String.mk (filter_no_hash _ hnh)
    have hstrip : pyStrip ⟨[a, b, c, e, f, g]⟩ = ⟨[a, b, c, e, f, g]⟩ :=
      congrArg String.mk (pyStripL_nonspace _ hsp)
    have hval : intHexE (⟨[a, b, c, e, f, g]⟩ : String)
        = .ok ((((((da * 16 + db) * 16 + dc) * 16 + de) * 16 + df) * 16 + dg : Nat) : Int) := by
      unfold intHexE
      rw [pyIntHex_six_digits a b c e f g da db dc de df dg ha hb hc he hf hg]
    constructor
    · have hbody : parse_color_body (some ⟨[a, b, c, e, f, g]⟩) dflt
          = intHexE (⟨[a, b, c, e, f, g]⟩ : String) := by
        simp only [parse_color_body]
        rw [if_neg (by simp [hstrip]), hhash, hstrip, if_pos (by simp)]
      simp [parse_color, hbody, hval]
    · have hhash2 : removeHashStr ⟨['#', a, b, c, e, f, g]⟩ = ⟨[a, b, c, e, f, g]⟩ := by
        show (⟨List.filter (fun c => !(c == '#')) ('#' :: [a, b, c, e, f, g])⟩ : String)
          = ⟨[a, b, c, e, f, g]⟩
        rw [List.filter_cons, if_neg (by simp), filter_no_hash _ hnh]
      have hsp2 : ∀ ch ∈ '#' :: [a, b, c, e, f, g], isSpaceChar ch = false := by
        intro ch hch
        rcases List.mem_cons.mp hch with rfl | htail
        · rfl
        · exact hsp ch htail
      have hstrip2 : pyStrip ⟨['#', a, b, c, e, f, g]⟩ = ⟨['#', a, b, c, e, f, g]⟩ :=
        congrArg String.mk (pyStripL_nonspace _ hsp2)
      have hbody : parse_color_body (some ⟨['#', a, b, c, e, f, g]⟩) dflt
          = intHexE (⟨[a, b, c, e, f, g]⟩ : String) := by
        simp only [parse_color_body]
        rw [if_neg (by simp [hstrip2]), hhash2, hstrip, if_pos (by simp)]
      simp [parse_color, hbody, hval]

/-- Witness for C9: with the real default `#1888FF`, the valid input
`#00FF00` parses to 65280 and the invalid input `zzz` falls back to the
default value 1607935. -/
theorem c9_parse_color_safe_witness :
    parse_color (some "#00FF00") "#1888FF" = .ok 65280
    ∧ parse_color (some "zzz") "#1888FF" = .ok 1607935 := by
  have h := c9_parse_color_safe "#1888FF" 1607935 rfl
  constructor
  · have h6 := (h.2.2.2 '0' '0' 'F' 'F' '0' '0' 0 0 15 15 0 0
      rfl rfl rfl rfl rfl rfl).2
    exact h6.trans rfl
  · exact h.2.2.1 "zzz" (Or.inl (by decide))

end SVBot
